import Mathlib

/-!
Verification development for the AWS enumeration tool
(src/aws_enumerator.py).

The cloud SDK is modelled as an environment of oracle functions, one per
service call the program issues.  Each oracle either returns the parsed
response data (`Except.ok`) or raises a client error (`Except.error ()`),
mirroring the `ClientError` exceptions the program catches.  Python
dictionaries are modelled as insertion-ordered association lists, so that
key sets, insertion order and overwrite semantics are preserved.

The per-region S3 calls take the current loop region as an argument: the
program constructs a fresh client and issues a fresh `list_buckets` /
`get_bucket_location` call on every iteration of the region loop, so each
iteration's outcome may differ (e.g. a transient fault in one iteration).
-/

/-- The mocked cloud SDK: one oracle per service call issued by
`get_all_resources`.  `Except.error ()` models a raised `ClientError`. -/
structure Env where
  describeRegions : Except Unit (List String)
  describeInstances : String → Except Unit (List (List String))
  describeVolumes : String → Except Unit (List String)
  describeSnapshots : String → Except Unit (List String)
  describeSecurityGroups : String → Except Unit (List (String × String))
  listBuckets : String → Except Unit (List String)
  getBucketLocation : String → String → Except Unit (Option String)
  describeDBInstances : String → Except Unit (List (String × String))

/-- A Python dict from resource-type name to list of item strings,
as an insertion-ordered association list. -/
abbrev RegionData := List (String × List String)

/-- The dict literal initialising `region_data` (lines 31-38 of the source):
all six resource kinds, each with an empty list. -/
def initRegionData : RegionData :=
  [("Instances", []), ("Volumes", []), ("Snapshots", []),
   ("SecurityGroups", []), ("S3Buckets", []), ("RDSInstances", [])]

/-- `region_data[k].append(x)` for a whole batch of appends
performed by one loop over a response. -/
def extendKey (d : RegionData) (k : String) (items : List String) : RegionData :=
  d.map (fun kv => if kv.1 = k then (kv.1, kv.2 ++ items) else kv)

/-- Dict lookup `d[k]`, defaulting to `[]` when the key is absent. -/
def getKind (d : RegionData) (k : String) : List String :=
  match d.find? (fun kv => kv.1 == k) with
  | some kv => kv.2
  | none => []

/-- The security-group display string built at line 61 of the source. -/
def formatSG (p : String × String) : String :=
  p.1 ++ " (" ++ p.2 ++ ")"

/-- The database display string built at lines 83-85 of the source. -/
def formatDB (p : String × String) : String :=
  p.1 ++ " (Status: " ++ p.2 ++ ")"

/-- The bucket loop of lines 71-74: for each listed bucket, look up its
location; a `ClientError` aborts the remaining loop (the exception escapes
to the handler at line 75), keeping the buckets already appended.
A bucket is kept when its location equals the current region, or when it
has no location constraint and the current region is us-east-1. -/
def s3Loop (env : Env) (region : String) : List String → List String
  | [] => []
  | b :: rest =>
    match env.getBucketLocation region b with
    | .error _ => []
    | .ok loc =>
      if loc = some region ∨ (loc = none ∧ region = "us-east-1")
      then b :: s3Loop env region rest
      else s3Loop env region rest

/-- One iteration of the region loop of `get_all_resources`
(lines 31-89): the shared EC2 try-block (instances, volumes, snapshots,
security groups, in that order, one handler for all four), then the S3
block, then the RDS block.  The second component is the trace of
`list_buckets` calls issued during the iteration: the S3 block always
issues exactly one, whether it succeeds or raises. -/
def collectRegion (env : Env) (region : String) : RegionData × List String :=
  let d1 :=
    match env.describeInstances region with
    | .error _ => initRegionData
    | .ok reservations =>
      let dA := extendKey initRegionData "Instances" reservations.flatten
      match env.describeVolumes region with
      | .error _ => dA
      | .ok vols =>
        let dB := extendKey dA "Volumes" vols
        match env.describeSnapshots region with
        | .error _ => dB
        | .ok snaps =>
          let dC := extendKey dB "Snapshots" snaps
          match env.describeSecurityGroups region with
          | .error _ => dC
          | .ok sgs => extendKey dC "SecurityGroups" (sgs.map formatSG)
  let d2 :=
    match env.listBuckets region with
    | .error _ => d1
    | .ok bs => extendKey d1 "S3Buckets" (s3Loop env region bs)
  let d3 :=
    match env.describeDBInstances region with
    | .error _ => d2
    | .ok dbs => extendKey d2 "RDSInstances" (dbs.map formatDB)
  (d3, ["list_buckets"])

/-- `resources_by_region[region] = region_data`: Python dict assignment,
overwriting in place when the key exists, appending otherwise. -/
def dictInsert (d : List (String × RegionData)) (k : String) (v : RegionData) :
    List (String × RegionData) :=
  if d.any (fun kv => kv.1 == k)
  then d.map (fun kv => if kv.1 = k then (k, v) else kv)
  else d ++ [(k, v)]

/-- One iteration of `for region in regions:` in `get_all_resources`:
the sentinel placeholder is skipped (lines 27-29); any other region is
collected and stored.  The second component accumulates the
`list_buckets` call trace. -/
def enumStep (env : Env) (acc : List (String × RegionData) × List String)
    (region : String) : List (String × RegionData) × List String :=
  if region = "ALL" then acc
  else
    let cr := collectRegion env region
    (dictInsert acc.1 region cr.1, acc.2 ++ cr.2)

/-- The region discovery step (lines 16-21): the names from
`describe_regions`, or `none` when the call raises (the program then
returns `{}` at once). -/
def discoverRegions (env : Env) : Option (List String) :=
  match env.describeRegions with
  | .error _ => none
  | .ok rs => some rs

/-- `get_all_resources` (lines 8-91): discover regions, prepend the
sentinel label, loop.  The first component is `resources_by_region`; the
second is the trace of global `list_buckets` calls issued during the run. -/
def get_all_resources (env : Env) : List (String × RegionData) × List String :=
  match discoverRegions env with
  | none => ([], [])
  | some rs => ("ALL" :: rs).foldl (enumStep env) ([], [])

/-- The fixed key order every `region_data` dict is built with. -/
def sixKindNames : List String :=
  ["Instances", "Volumes", "Snapshots", "SecurityGroups", "S3Buckets", "RDSInstances"]

/-- A region-data dict with the six canonical keys in canonical order. -/
def mkRegionData (a b c d e f : List String) : RegionData :=
  [("Instances", a), ("Volumes", b), ("Snapshots", c),
   ("SecurityGroups", d), ("S3Buckets", e), ("RDSInstances", f)]

/-- Items the EC2 try-block leaves under `Instances` for one region:
the flattened reservation/instance ids when the call succeeds,
nothing when it raises. -/
def ec2InstancesOf (env : Env) (r : String) : List String :=
  match env.describeInstances r with
  | .error _ => []
  | .ok reservations => reservations.flatten

/-- Items left under `Volumes`: empty whenever the instances call already
raised (the shared handler skipped the volumes call), else the volume ids
when that call succeeds. -/
def ec2VolumesOf (env : Env) (r : String) : List String :=
  match env.describeInstances r with
  | .error _ => []
  | .ok _ =>
    match env.describeVolumes r with
    | .error _ => []
    | .ok vols => vols

/-- Items left under `Snapshots`: empty when any earlier EC2 call raised. -/
def ec2SnapshotsOf (env : Env) (r : String) : List String :=
  match env.describeInstances r with
  | .error _ => []
  | .ok _ =>
    match env.describeVolumes r with
    | .error _ => []
    | .ok _ =>
      match env.describeSnapshots r with
      | .error _ => []
      | .ok snaps => snaps

/-- Items left under `SecurityGroups`: empty when any earlier EC2 call
raised. -/
def ec2SecurityGroupsOf (env : Env) (r : String) : List String :=
  match env.describeInstances r with
  | .error _ => []
  | .ok _ =>
    match env.describeVolumes r with
    | .error _ => []
    | .ok _ =>
      match env.describeSnapshots r with
      | .error _ => []
      | .ok _ =>
        match env.describeSecurityGroups r with
        | .error _ => []
        | .ok sgs => sgs.map formatSG

/-- Items left under `S3Buckets` for one region iteration. -/
def s3BucketsOf (env : Env) (r : String) : List String :=
  match env.listBuckets r with
  | .error _ => []
  | .ok bs => s3Loop env r bs

/-- Items left under `RDSInstances` for one region iteration. -/
def rdsOf (env : Env) (r : String) : List String :=
  match env.describeDBInstances r with
  | .error _ => []
  | .ok dbs => dbs.map formatDB

lemma collectRegion_eq (env : Env) (r : String) :
    collectRegion env r
      = (mkRegionData (ec2InstancesOf env r) (ec2VolumesOf env r) (ec2SnapshotsOf env r)
          (ec2SecurityGroupsOf env r) (s3BucketsOf env r) (rdsOf env r), ["list_buckets"]) := by
  unfold collectRegion ec2InstancesOf ec2VolumesOf ec2SnapshotsOf ec2SecurityGroupsOf
    s3BucketsOf rdsOf
  rcases env.describeInstances r with _ | ins <;>
  rcases env.describeVolumes r with _ | vols <;>
  rcases env.describeSnapshots r with _ | snaps <;>
  rcases env.describeSecurityGroups r with _ | sgs <;>
  rcases env.listBuckets r with _ | bs <;>
  rcases env.describeDBInstances r with _ | dbs <;>
  simp [initRegionData, extendKey, mkRegionData]

@[simp] lemma getKind_mk_instances (a b c d e f : List String) :
    getKind (mkRegionData a b c d e f) "Instances" = a := rfl

@[simp] lemma getKind_mk_volumes (a b c d e f : List String) :
    getKind (mkRegionData a b c d e f) "Volumes" = b := rfl

@[simp] lemma getKind_mk_snapshots (a b c d e f : List String) :
    getKind (mkRegionData a b c d e f) "Snapshots" = c := rfl

@[simp] lemma getKind_mk_securitygroups (a b c d e f : List String) :
    getKind (mkRegionData a b c d e f) "SecurityGroups" = d := rfl

@[simp] lemma getKind_mk_s3buckets (a b c d e f : List String) :
    getKind (mkRegionData a b c d e f) "S3Buckets" = e := rfl

@[simp] lemma getKind_mk_rdsinstances (a b c d e f : List String) :
    getKind (mkRegionData a b c d e f) "RDSInstances" = f := rfl

lemma mkRegionData_keys (a b c d e f : List String) :
    (mkRegionData a b c d e f).map Prod.fst = sixKindNames := rfl

lemma mem_dictInsert {d : List (String × RegionData)} {k : String} {v : RegionData}
    {p : String × RegionData} (hp : p ∈ dictInsert d k v) : p ∈ d ∨ p = (k, v) := by
  unfold dictInsert at hp
  by_cases h : d.any (fun kv => kv.1 == k)
  · rw [if_pos h] at hp
    rcases List.mem_map.mp hp with ⟨kv, hkv, hEq⟩
    by_cases hk : kv.1 = k
    · rw [if_pos hk] at hEq
      exact Or.inr hEq.symm
    · rw [if_neg hk] at hEq
      exact Or.inl (hEq ▸ hkv)
  · rw [if_neg h] at hp
    rcases List.mem_append.mp hp with h1 | h1
    · exact Or.inl h1
    · exact Or.inr (List.mem_singleton.mp h1)

lemma dictInsert_of_not_mem {d : List (String × RegionData)} {k : String}
    (v : RegionData) (h : k ∉ d.map Prod.fst) : dictInsert d k v = d ++ [(k, v)] := by
  unfold dictInsert
  rw [if_neg]
  simp only [List.any_eq_true, beq_iff_eq, not_exists, not_and]
  intro kv hkv hk
  exact h (List.mem_map.mpr ⟨kv, hkv, hk⟩)

lemma mem_foldl_enumStep (env : Env) :
    ∀ (rs : List String) (acc : List (String × RegionData) × List String)
      (p : String × RegionData),
      p ∈ (rs.foldl (enumStep env) acc).1 →
      p ∈ acc.1 ∨ (p.1 ∈ rs ∧ p.1 ≠ "ALL" ∧ p.2 = (collectRegion env p.1).1) := by
  intro rs
  induction rs with
  | nil => exact fun acc p hp => Or.inl hp
  | cons r rest ih =>
    intro acc p hp
    rw [List.foldl_cons] at hp
    rcases ih _ p hp with h | h
    · by_cases hr : r = "ALL"
      · rw [enumStep, if_pos hr] at h
        exact Or.inl h
      · rw [enumStep, if_neg hr] at h
        rcases mem_dictInsert h with h1 | h1
        · exact Or.inl h1
        · refine Or.inr ⟨?_, ?_, ?_⟩
          · rw [h1]; exact List.mem_cons_self r rest
          · rw [h1]; exact hr
          · rw [h1]
    · exact Or.inr ⟨List.mem_cons_of_mem r h.1, h.2.1, h.2.2⟩

lemma mem_get_all {env : Env} {rs : List String} {p : String × RegionData}
    (hreg : env.describeRegions = .ok rs) (hp : p ∈ (get_all_resources env).1) :
    p.1 ∈ rs ∧ p.1 ≠ "ALL" ∧ p.2 = (collectRegion env p.1).1 := by
  rw [get_all_resources, discoverRegions, hreg] at hp
  rcases mem_foldl_enumStep env ("ALL" :: rs) ([], []) p hp with h | h
  · exact absurd h (List.not_mem_nil p)
  · refine ⟨?_, h.2.1, h.2.2⟩
    rcases List.mem_cons.mp h.1 with h1 | h1
    · exact absurd h1 h.2.1
    · exact h1

lemma foldl_enumStep_append (env : Env) :
    ∀ (rs : List String) (acc : List (String × RegionData) × List String),
      rs.Nodup → "ALL" ∉ rs →
      (∀ r ∈ rs, r ∉ acc.1.map Prod.fst) →
      (rs.foldl (enumStep env) acc).1
        = acc.1 ++ rs.map (fun r => (r, (collectRegion env r).1)) := by
  intro rs
  induction rs with
  | nil => intro acc _ _ _; simp
  | cons r rest ih =>
    intro acc hnd hall hdisj
    have hrALL : r ≠ "ALL" := fun h => hall (h ▸ List.mem_cons_self r rest)
    have hrkey : r ∉ acc.1.map Prod.fst := hdisj r (List.mem_cons_self r rest)
    have hstep : enumStep env acc r
        = (acc.1 ++ [(r, (collectRegion env r).1)], acc.2 ++ (collectRegion env r).2) := by
      rw [enumStep, if_neg hrALL]
      show (dictInsert acc.1 r (collectRegion env r).1, acc.2 ++ (collectRegion env r).2) = _
      rw [dictInsert_of_not_mem _ hrkey]
    rw [List.foldl_cons, hstep,
      ih _ (List.nodup_cons.mp hnd).2 (fun h => hall (List.mem_cons_of_mem r h)) ?_]
    · simp
    · intro x hx
      simp only [List.map_append, List.mem_append]
      rintro (h1 | h1)
      · exact hdisj x (List.mem_cons_of_mem r hx) h1
      · simp only [List.map_cons, List.map_nil, List.mem_singleton] at h1
        exact (List.nodup_cons.mp hnd).1 (h1 ▸ hx)

lemma get_all_eq_map {env : Env} {rs : List String}
    (hreg : env.describeRegions = .ok rs) (hnd : rs.Nodup) (hall : "ALL" ∉ rs) :
    (get_all_resources env).1 = rs.map (fun r => (r, (collectRegion env r).1)) := by
  simp only [get_all_resources, discoverRegions, hreg]
  rw [List.foldl_cons]
  have h0 : enumStep env ([], []) "ALL" = ([], []) := by
    rw [enumStep, if_pos rfl]
  rw [h0, foldl_enumStep_append env rs ([], []) hnd hall (by simp)]
  simp

lemma foldl_enumStep_trace (env : Env) :
    ∀ (rs : List String) (acc : List (String × RegionData) × List String),
      (rs.foldl (enumStep env) acc).2.length
        = acc.2.length + (rs.filter (fun r => !(r == "ALL"))).length := by
  intro rs
  induction rs with
  | nil => intro acc; simp
  | cons r rest ih =>
    intro acc
    rw [List.foldl_cons, ih]
    by_cases hr : r = "ALL"
    · simp only [enumStep, if_pos hr]
      simp [hr]
    · simp only [enumStep, if_neg hr]
      simp [List.filter_cons, hr, collectRegion_eq]
      omega

lemma get_all_trace_length {env : Env} {rs : List String}
    (hreg : env.describeRegions = .ok rs) (hall : "ALL" ∉ rs) :
    (get_all_resources env).2.length = rs.length := by
  simp only [get_all_resources, discoverRegions, hreg]
  rw [List.foldl_cons]
  have h0 : enumStep env ([], []) "ALL" = ([], []) := by
    rw [enumStep, if_pos rfl]
  rw [h0, foldl_enumStep_trace env rs ([], [])]
  have : rs.filter (fun r => !(r == "ALL")) = rs := by
    rw [List.filter_eq_self]
    intro a ha
    simp only [Bool.not_eq_eq_eq_not, Bool.not_true, beq_eq_false_iff_ne, ne_eq]
    exact fun h => hall (h ▸ ha)
  rw [this]
  simp

lemma s3Loop_ok (env : Env) (r : String) (locOf : String → Option String)
    (hloc : ∀ b, env.getBucketLocation r b = .ok (locOf b)) :
    ∀ l : List String,
      s3Loop env r l
        = l.filter (fun b => decide (locOf b = some r ∨ (locOf b = none ∧ r = "us-east-1"))) := by
  intro l
  induction l with
  | nil => rfl
  | cons b rest ih =>
    rw [s3Loop, hloc b]
    show (if locOf b = some r ∨ (locOf b = none ∧ r = "us-east-1")
        then b :: s3Loop env r rest else s3Loop env r rest) = _
    by_cases hc : locOf b = some r ∨ (locOf b = none ∧ r = "us-east-1")
    · rw [if_pos hc, List.filter_cons]
      simp [hc, ih]
    · rw [if_neg hc, List.filter_cons]
      simp [hc, ih]

lemma mem_s3Loop (env : Env) (r n : String) :
    ∀ l : List String, n ∈ s3Loop env r l →
      ∃ loc, env.getBucketLocation r n = .ok loc ∧
        (loc = some r ∨ (loc = none ∧ r = "us-east-1")) := by
  intro l
  induction l with
  | nil => intro h; cases h
  | cons b rest ih =>
    intro h
    rw [s3Loop] at h
    rcases hb : env.getBucketLocation r b with u | loc
    · rw [hb] at h; cases h
    · rw [hb] at h
      have h2 : n ∈ (if loc = some r ∨ (loc = none ∧ r = "us-east-1")
          then b :: s3Loop env r rest else s3Loop env r rest) := h
      by_cases hc : loc = some r ∨ (loc = none ∧ r = "us-east-1")
      · rw [if_pos hc] at h2
        rcases List.mem_cons.mp h2 with h1 | h1
        · exact ⟨loc, h1 ▸ hb, hc⟩
        · exact ih h1
      · rw [if_neg hc] at h2
        exact ih h2

/-- One iteration of the aggregate loop of
`MainWindow.display_resources_for_region` (lines 153-157): a `resources`
entry is skipped when its key is the sentinel label; otherwise, for each
of the six keys of `combined`, the entry's items are appended. -/
def combineStep (acc : RegionData) (rd : String × RegionData) : RegionData :=
  if rd.1 = "ALL" then acc
  else sixKindNames.foldl (fun a k => extendKey a k (getKind rd.2 k)) acc

/-- The sentinel view computed by `display_resources_for_region`
(lines 143-157): start from the all-empty dict and fold the aggregate
loop over the inventory in its iteration (= insertion) order. -/
def combineAll (inv : List (String × RegionData)) : RegionData :=
  inv.foldl combineStep initRegionData

lemma sixFold_mk (x1 x2 x3 x4 x5 x6 a1 a2 a3 a4 a5 a6 : List String) :
    sixKindNames.foldl
        (fun a k => extendKey a k (getKind (mkRegionData x1 x2 x3 x4 x5 x6) k))
        (mkRegionData a1 a2 a3 a4 a5 a6)
      = mkRegionData (a1 ++ x1) (a2 ++ x2) (a3 ++ x3) (a4 ++ x4) (a5 ++ x5) (a6 ++ x6) := by
  simp [sixKindNames, extendKey, getKind, mkRegionData]

lemma combineAll_aux (env : Env) :
    ∀ (rs : List String) (a1 a2 a3 a4 a5 a6 : List String), "ALL" ∉ rs →
      (rs.map (fun r => (r, (collectRegion env r).1))).foldl combineStep
          (mkRegionData a1 a2 a3 a4 a5 a6)
        = mkRegionData
            (a1 ++ (rs.map (fun r => ec2InstancesOf env r)).flatten)
            (a2 ++ (rs.map (fun r => ec2VolumesOf env r)).flatten)
            (a3 ++ (rs.map (fun r => ec2SnapshotsOf env r)).flatten)
            (a4 ++ (rs.map (fun r => ec2SecurityGroupsOf env r)).flatten)
            (a5 ++ (rs.map (fun r => s3BucketsOf env r)).flatten)
            (a6 ++ (rs.map (fun r => rdsOf env r)).flatten) := by
  intro rs
  induction rs with
  | nil => intro a1 a2 a3 a4 a5 a6 _; simp
  | cons r rest ih =>
    intro a1 a2 a3 a4 a5 a6 hall
    have hr : r ≠ "ALL" := fun h => hall (h ▸ List.mem_cons_self r rest)
    rw [List.map_cons, List.foldl_cons]
    have hstep : combineStep (mkRegionData a1 a2 a3 a4 a5 a6) (r, (collectRegion env r).1)
        = mkRegionData (a1 ++ ec2InstancesOf env r) (a2 ++ ec2VolumesOf env r)
            (a3 ++ ec2SnapshotsOf env r) (a4 ++ ec2SecurityGroupsOf env r)
            (a5 ++ s3BucketsOf env r) (a6 ++ rdsOf env r) := by
      rw [combineStep, if_neg hr, collectRegion_eq]
      exact sixFold_mk _ _ _ _ _ _ _ _ _ _ _ _
    rw [hstep, ih _ _ _ _ _ _ (fun h => hall (List.mem_cons_of_mem r h))]
    simp [List.append_assoc]

/-- One iteration of the line-building loop of
`MainWindow.format_region_data` (lines 170-177): header line for the
resource type, then either the `(none)` marker or one line per item,
then a blank line. -/
def fmtStep (lines : List String) (kv : String × List String) : List String :=
  let lines1 := lines ++ [kv.1 ++ ":"]
  let lines2 :=
    if kv.2.isEmpty then lines1 ++ ["  - (none)"]
    else lines1 ++ kv.2.map (fun it => "  - " ++ it)
  lines2 ++ [""]

/-- `MainWindow.format_region_data` (lines 168-178): fold the
line-building loop over the dict entries in their stored order and join
with newlines. -/
def format_region_data (region : String) (d : RegionData) : String :=
  String.intercalate "\n" (d.foldl fmtStep ["Resources in region: " ++ region ++ "\n"])

/-- Modelled from the spec's formatter contract: the block of lines for
one resource kind — a header line, then a single `(none)` marker when the
sequence is empty, else one line per item in stored order. -/
def sectionLines (name : String) (items : List String) : List String :=
  (name ++ ":") ::
    ((if items.isEmpty then ["  - (none)"] else items.map (fun it => "  - " ++ it)) ++ [""])

/-- Modelled from the spec's formatter contract (section 4.5): a pure
function of the region and the six item sequences, emitting for each
ResourceKind in the fixed canonical order a header line and either the
`(none)` marker or one line per item. -/
def formatContract (region : String) (a b c d e f : List String) : String :=
  String.intercalate "\n"
    (("Resources in region: " ++ region ++ "\n") ::
      (sectionLines "Instances" a ++ sectionLines "Volumes" b ++
       sectionLines "Snapshots" c ++ sectionLines "SecurityGroups" d ++
       sectionLines "S3Buckets" e ++ sectionLines "RDSInstances" f))

lemma foldl_fmtStep (d : RegionData) :
    ∀ init : List String,
      d.foldl fmtStep init = init ++ (d.map (fun kv => sectionLines kv.1 kv.2)).flatten := by
  induction d with
  | nil => intro init; simp
  | cons kv rest ih =>
    intro init
    rw [List.foldl_cons, ih]
    have hstep : fmtStep init kv = init ++ sectionLines kv.1 kv.2 := by
      rw [fmtStep, sectionLines]
      by_cases h : kv.2.isEmpty
      · simp [h]
      · simp [h]
    rw [hstep]
    simp

/-- A two-region account: one instance and one volume in us-east-1, one
security group in eu-west-1, bucket b1 with no location constraint and
bucket b2 governed by eu-west-1. -/
def envA : Env where
  describeRegions := .ok ["us-east-1", "eu-west-1"]
  describeInstances := fun r => if r = "us-east-1" then .ok [["i-1"]] else .ok []
  describeVolumes := fun r => if r = "us-east-1" then .ok ["vol-1"] else .ok []
  describeSnapshots := fun _ => .ok []
  describeSecurityGroups := fun r => if r = "eu-west-1" then .ok [("web", "sg-1")] else .ok []
  listBuckets := fun _ => .ok ["b1", "b2"]
  getBucketLocation := fun _ b => if b = "b1" then .ok none else .ok (some "eu-west-1")
  describeDBInstances := fun _ => .ok []

/-- An account whose region-listing call raises a `ClientError`. -/
def envNoRegions : Env :=
  { envA with describeRegions := .error () }

/-- A region-listing response that repeats the same region name. -/
def envDupRegions : Env :=
  { envA with describeRegions := .ok ["us-east-1", "us-east-1"] }

/-- A single-region account whose instances call raises, while its
volumes call would succeed with one volume: exactly one issued service
call fails during the run. -/
def envFailInst : Env :=
  { envA with
    describeRegions := .ok ["us-east-1"]
    describeInstances := fun _ => .error () }

/-- The same account as `envFailInst` but with the instances call
succeeding (with no reservations): the corresponding no-failure run. -/
def envOkayInst : Env :=
  { envFailInst with describeInstances := fun _ => .ok [] }

/-- A single-region account whose snapshots and database calls raise
after the instances and volumes calls succeeded. -/
def envMidFail : Env :=
  { envA with
    describeRegions := .ok ["us-east-1"]
    describeSnapshots := fun _ => .error ()
    describeDBInstances := fun _ => .error () }

/-- An account listing a bucket b3 governed by a region (ap-south-1) that
region discovery did not return. -/
def envStray : Env :=
  { envA with
    listBuckets := fun _ => .ok ["b1", "b3"]
    getBucketLocation := fun _ b =>
      if b = "b1" then .ok none
      else if b = "b3" then .ok (some "ap-south-1")
      else .ok (some "eu-west-1") }

/-- `env` with the probe call for kind `k` raising in region `r` and
every other call unchanged: the run that differs from `env`'s run by
exactly one probe failure, for the failing kind chosen by `k`. -/
def failProbe (env : Env) (k r : String) : Env :=
  if k = "Instances" then
    { env with describeInstances := fun x => if x = r then .error () else env.describeInstances x }
  else if k = "Volumes" then
    { env with describeVolumes := fun x => if x = r then .error () else env.describeVolumes x }
  else if k = "Snapshots" then
    { env with describeSnapshots := fun x => if x = r then .error () else env.describeSnapshots x }
  else if k = "SecurityGroups" then
    { env with describeSecurityGroups :=
        fun x => if x = r then .error () else env.describeSecurityGroups x }
  else if k = "S3Buckets" then
    { env with listBuckets := fun x => if x = r then .error () else env.listBuckets x }
  else
    { env with describeDBInstances :=
        fun x => if x = r then .error () else env.describeDBInstances x }

/-- The four kinds populated inside the single shared EC2 try-block, in
the order their calls are issued (lines 40-65 of the source). -/
def ec2KindNames : List String :=
  ["Instances", "Volumes", "Snapshots", "SecurityGroups"]

/-- Which kind sequences of the failing region a failing probe for kind
`k` empties: `k` itself, and — because one exception handler wraps all
four EC2 calls, so a failure skips the block's remaining calls — every
EC2-section kind issued after `k`. -/
def probeAffected (k k2 : String) : Prop :=
  k2 = k ∨ (k ∈ ec2KindNames ∧ k2 ∈ ec2KindNames ∧
    ec2KindNames.indexOf k < ec2KindNames.indexOf k2)

instance (k k2 : String) : Decidable (probeAffected k k2) := by
  unfold probeAffected
  infer_instance

lemma ec2InstancesOf_ok (env : Env) (r : String) (ins : List (List String))
    (h : env.describeInstances r = .ok ins) : ec2InstancesOf env r = ins.flatten := by
  unfold ec2InstancesOf
  rw [h]

lemma ec2VolumesOf_ok (env : Env) (r : String) {ins : List (List String)} {vols : List String}
    (h1 : env.describeInstances r = .ok ins) (h2 : env.describeVolumes r = .ok vols) :
    ec2VolumesOf env r = vols := by
  unfold ec2VolumesOf
  rw [h1, h2]

lemma ec2SnapshotsOf_of_error (env : Env) (r : String)
    (h : env.describeSnapshots r = .error ()) : ec2SnapshotsOf env r = [] := by
  unfold ec2SnapshotsOf
  rw [h]
  rcases env.describeInstances r with u | i
  · rfl
  · rcases env.describeVolumes r with u | v <;> rfl

lemma ec2SecurityGroupsOf_of_snapError (env : Env) (r : String)
    (h : env.describeSnapshots r = .error ()) : ec2SecurityGroupsOf env r = [] := by
  unfold ec2SecurityGroupsOf
  rw [h]
  rcases env.describeInstances r with u | i
  · rfl
  · rcases env.describeVolumes r with u | v <;> rfl

lemma rdsOf_of_error (env : Env) (r : String)
    (h : env.describeDBInstances r = .error ()) : rdsOf env r = [] := by
  unfold rdsOf
  rw [h]

lemma s3Loop_congr (env1 env2 : Env) (r : String)
    (h : env1.getBucketLocation = env2.getBucketLocation) :
    ∀ l, s3Loop env1 r l = s3Loop env2 r l := by
  intro l
  induction l with
  | nil => rfl
  | cons b rest ih => simp only [s3Loop, h, ih]

lemma s3BucketsOf_congr (env1 env2 : Env) (x : String)
    (hl : env1.listBuckets x = env2.listBuckets x)
    (hg : env1.getBucketLocation = env2.getBucketLocation) :
    s3BucketsOf env1 x = s3BucketsOf env2 x := by
  unfold s3BucketsOf
  rw [hl]
  simp only [s3Loop_congr env1 env2 x hg]

lemma ec2SnapshotsOf_ok (env : Env) (r : String) {ins : List (List String)}
    {vols snaps : List String}
    (h1 : env.describeInstances r = .ok ins) (h2 : env.describeVolumes r = .ok vols)
    (h3 : env.describeSnapshots r = .ok snaps) : ec2SnapshotsOf env r = snaps := by
  unfold ec2SnapshotsOf
  rw [h1, h2, h3]

lemma ec2SecurityGroupsOf_ok (env : Env) (r : String) {ins : List (List String)}
    {vols snaps : List String} {sgs : List (String × String)}
    (h1 : env.describeInstances r = .ok ins) (h2 : env.describeVolumes r = .ok vols)
    (h3 : env.describeSnapshots r = .ok snaps)
    (h4 : env.describeSecurityGroups r = .ok sgs) :
    ec2SecurityGroupsOf env r = sgs.map formatSG := by
  unfold ec2SecurityGroupsOf
  rw [h1, h2, h3, h4]

lemma s3BucketsOf_ok (env : Env) (r : String) {bs : List String}
    (h : env.listBuckets r = .ok bs) : s3BucketsOf env r = s3Loop env r bs := by
  unfold s3BucketsOf
  rw [h]

lemma rdsOf_ok (env : Env) (r : String) {dbs : List (String × String)}
    (h : env.describeDBInstances r = .ok dbs) : rdsOf env r = dbs.map formatDB := by
  unfold rdsOf
  rw [h]

lemma ec2InstancesOf_of_error (env : Env) (r : String)
    (h : env.describeInstances r = .error ()) : ec2InstancesOf env r = [] := by
  unfold ec2InstancesOf
  rw [h]

lemma ec2VolumesOf_of_instError (env : Env) (r : String)
    (h : env.describeInstances r = .error ()) : ec2VolumesOf env r = [] := by
  unfold ec2VolumesOf
  rw [h]

lemma ec2VolumesOf_of_error (env : Env) (r : String)
    (h : env.describeVolumes r = .error ()) : ec2VolumesOf env r = [] := by
  unfold ec2VolumesOf
  rw [h]
  rcases env.describeInstances r with u | i <;> rfl

lemma ec2SnapshotsOf_of_instError (env : Env) (r : String)
    (h : env.describeInstances r = .error ()) : ec2SnapshotsOf env r = [] := by
  unfold ec2SnapshotsOf
  rw [h]

lemma ec2SnapshotsOf_of_volError (env : Env) (r : String)
    (h : env.describeVolumes r = .error ()) : ec2SnapshotsOf env r = [] := by
  unfold ec2SnapshotsOf
  rw [h]
  rcases env.describeInstances r with u | i <;> rfl

lemma ec2SecurityGroupsOf_of_instError (env : Env) (r : String)
    (h : env.describeInstances r = .error ()) : ec2SecurityGroupsOf env r = [] := by
  unfold ec2SecurityGroupsOf
  rw [h]

lemma ec2SecurityGroupsOf_of_volError (env : Env) (r : String)
    (h : env.describeVolumes r = .error ()) : ec2SecurityGroupsOf env r = [] := by
  unfold ec2SecurityGroupsOf
  rw [h]
  rcases env.describeInstances r with u | i <;> rfl

lemma ec2SecurityGroupsOf_of_sgError (env : Env) (r : String)
    (h : env.describeSecurityGroups r = .error ()) : ec2SecurityGroupsOf env r = [] := by
  unfold ec2SecurityGroupsOf
  rw [h]
  rcases env.describeInstances r with u | i
  · rfl
  · rcases env.describeVolumes r with u | v
    · rfl
    · rcases env.describeSnapshots r with u | s <;> rfl

lemma s3BucketsOf_of_error (env : Env) (r : String)
    (h : env.listBuckets r = .error ()) : s3BucketsOf env r = [] := by
  unfold s3BucketsOf
  rw [h]

lemma collectRegion_congr (env1 env2 : Env) (x : String)
    (h1 : env1.describeInstances x = env2.describeInstances x)
    (h2 : env1.describeVolumes x = env2.describeVolumes x)
    (h3 : env1.describeSnapshots x = env2.describeSnapshots x)
    (h4 : env1.describeSecurityGroups x = env2.describeSecurityGroups x)
    (h5 : env1.listBuckets x = env2.listBuckets x)
    (hg : env1.getBucketLocation = env2.getBucketLocation)
    (h6 : env1.describeDBInstances x = env2.describeDBInstances x) :
    (collectRegion env1 x).1 = (collectRegion env2 x).1 := by
  have c1 : ec2InstancesOf env1 x = ec2InstancesOf env2 x := by
    unfold ec2InstancesOf
    rw [h1]
  have c2 : ec2VolumesOf env1 x = ec2VolumesOf env2 x := by
    unfold ec2VolumesOf
    rw [h1, h2]
  have c3 : ec2SnapshotsOf env1 x = ec2SnapshotsOf env2 x := by
    unfold ec2SnapshotsOf
    rw [h1, h2, h3]
  have c4 : ec2SecurityGroupsOf env1 x = ec2SecurityGroupsOf env2 x := by
    unfold ec2SecurityGroupsOf
    rw [h1, h2, h3, h4]
  have c5 : s3BucketsOf env1 x = s3BucketsOf env2 x := s3BucketsOf_congr env1 env2 x h5 hg
  have c6 : rdsOf env1 x = rdsOf env2 x := by
    unfold rdsOf
    rw [h6]
  rw [collectRegion_eq, collectRegion_eq]
  simp only [c1, c2, c3, c4, c5, c6]

lemma collectRegion_failProbe_instances (env : Env) (r : String) :
    (collectRegion (failProbe env "Instances" r) r).1
      = mkRegionData [] [] [] [] (s3BucketsOf env r) (rdsOf env r) := by
  have hfail : (failProbe env "Instances" r).describeInstances r = .error () := by
    simp [failProbe]
  have hLB : (failProbe env "Instances" r).listBuckets = env.listBuckets := by
    simp [failProbe]
  have hGL : (failProbe env "Instances" r).getBucketLocation = env.getBucketLocation := by
    simp [failProbe]
  have hDB : (failProbe env "Instances" r).describeDBInstances = env.describeDBInstances := by
    simp [failProbe]
  have c5 : s3BucketsOf (failProbe env "Instances" r) r = s3BucketsOf env r :=
    s3BucketsOf_congr (failProbe env "Instances" r) env r (by rw [hLB]) hGL
  have c6 : rdsOf (failProbe env "Instances" r) r = rdsOf env r := by
    unfold rdsOf
    rw [hDB]
  rw [collectRegion_eq, ec2InstancesOf_of_error _ r hfail, ec2VolumesOf_of_instError _ r hfail,
    ec2SnapshotsOf_of_instError _ r hfail, ec2SecurityGroupsOf_of_instError _ r hfail, c5, c6]

lemma collectRegion_failProbe_volumes (env : Env) (r : String) :
    (collectRegion (failProbe env "Volumes" r) r).1
      = mkRegionData (ec2InstancesOf env r) [] [] [] (s3BucketsOf env r) (rdsOf env r) := by
  have hfail : (failProbe env "Volumes" r).describeVolumes r = .error () := by
    simp [failProbe]
  have hIns : (failProbe env "Volumes" r).describeInstances = env.describeInstances := by
    simp [failProbe]
  have hLB : (failProbe env "Volumes" r).listBuckets = env.listBuckets := by
    simp [failProbe]
  have hGL : (failProbe env "Volumes" r).getBucketLocation = env.getBucketLocation := by
    simp [failProbe]
  have hDB : (failProbe env "Volumes" r).describeDBInstances = env.describeDBInstances := by
    simp [failProbe]
  have c1 : ec2InstancesOf (failProbe env "Volumes" r) r = ec2InstancesOf env r := by
    unfold ec2InstancesOf
    rw [hIns]
  have c5 : s3BucketsOf (failProbe env "Volumes" r) r = s3BucketsOf env r :=
    s3BucketsOf_congr (failProbe env "Volumes" r) env r (by rw [hLB]) hGL
  have c6 : rdsOf (failProbe env "Volumes" r) r = rdsOf env r := by
    unfold rdsOf
    rw [hDB]
  rw [collectRegion_eq, ec2VolumesOf_of_error _ r hfail, ec2SnapshotsOf_of_volError _ r hfail,
    ec2SecurityGroupsOf_of_volError _ r hfail, c1, c5, c6]

lemma collectRegion_failProbe_snapshots (env : Env) (r : String) :
    (collectRegion (failProbe env "Snapshots" r) r).1
      = mkRegionData (ec2InstancesOf env r) (ec2VolumesOf env r) [] []
          (s3BucketsOf env r) (rdsOf env r) := by
  have hfail : (failProbe env "Snapshots" r).describeSnapshots r = .error () := by
    simp [failProbe]
  have hIns : (failProbe env "Snapshots" r).describeInstances = env.describeInstances := by
    simp [failProbe]
  have hVol : (failProbe env "Snapshots" r).describeVolumes = env.describeVolumes := by
    simp [failProbe]
  have hLB : (failProbe env "Snapshots" r).listBuckets = env.listBuckets := by
    simp [failProbe]
  have hGL : (failProbe env "Snapshots" r).getBucketLocation = env.getBucketLocation := by
    simp [failProbe]
  have hDB : (failProbe env "Snapshots" r).describeDBInstances = env.describeDBInstances := by
    simp [failProbe]
  have c1 : ec2InstancesOf (failProbe env "Snapshots" r) r = ec2InstancesOf env r := by
    unfold ec2InstancesOf
    rw [hIns]
  have c2 : ec2VolumesOf (failProbe env "Snapshots" r) r = ec2VolumesOf env r := by
    unfold ec2VolumesOf
    rw [hIns, hVol]
  have c5 : s3BucketsOf (failProbe env "Snapshots" r) r = s3BucketsOf env r :=
    s3BucketsOf_congr (failProbe env "Snapshots" r) env r (by rw [hLB]) hGL
  have c6 : rdsOf (failProbe env "Snapshots" r) r = rdsOf env r := by
    unfold rdsOf
    rw [hDB]
  rw [collectRegion_eq, ec2SnapshotsOf_of_error _ r hfail,
    ec2SecurityGroupsOf_of_snapError _ r hfail, c1, c2, c5, c6]

lemma collectRegion_failProbe_sgs (env : Env) (r : String) :
    (collectRegion (failProbe env "SecurityGroups" r) r).1
      = mkRegionData (ec2InstancesOf env r) (ec2VolumesOf env r) (ec2SnapshotsOf env r) []
          (s3BucketsOf env r) (rdsOf env r) := by
  have hfail : (failProbe env "SecurityGroups" r).describeSecurityGroups r = .error () := by
    simp [failProbe]
  have hIns : (failProbe env "SecurityGroups" r).describeInstances = env.describeInstances := by
    simp [failProbe]
  have hVol : (failProbe env "SecurityGroups" r).describeVolumes = env.describeVolumes := by
    simp [failProbe]
  have hSnap : (failProbe env "SecurityGroups" r).describeSnapshots = env.describeSnapshots := by
    simp [failProbe]
  have hLB : (failProbe env "SecurityGroups" r).listBuckets = env.listBuckets := by
    simp [failProbe]
  have hGL : (failProbe env "SecurityGroups" r).getBucketLocation = env.getBucketLocation := by
    simp [failProbe]
  have hDB : (failProbe env "SecurityGroups" r).describeDBInstances
      = env.describeDBInstances := by
    simp [failProbe]
  have c1 : ec2InstancesOf (failProbe env "SecurityGroups" r) r = ec2InstancesOf env r := by
    unfold ec2InstancesOf
    rw [hIns]
  have c2 : ec2VolumesOf (failProbe env "SecurityGroups" r) r = ec2VolumesOf env r := by
    unfold ec2VolumesOf
    rw [hIns, hVol]
  have c3 : ec2SnapshotsOf (failProbe env "SecurityGroups" r) r = ec2SnapshotsOf env r := by
    unfold ec2SnapshotsOf
    rw [hIns, hVol, hSnap]
  have c5 : s3BucketsOf (failProbe env "SecurityGroups" r) r = s3BucketsOf env r :=
    s3BucketsOf_congr (failProbe env "SecurityGroups" r) env r (by rw [hLB]) hGL
  have c6 : rdsOf (failProbe env "SecurityGroups" r) r = rdsOf env r := by
    unfold rdsOf
    rw [hDB]
  rw [collectRegion_eq, ec2SecurityGroupsOf_of_sgError _ r hfail, c1, c2, c3, c5, c6]

lemma collectRegion_failProbe_s3 (env : Env) (r : String) :
    (collectRegion (failProbe env "S3Buckets" r) r).1
      = mkRegionData (ec2InstancesOf env r) (ec2VolumesOf env r) (ec2SnapshotsOf env r)
          (ec2SecurityGroupsOf env r) [] (rdsOf env r) := by
  have hfail : (failProbe env "S3Buckets" r).listBuckets r = .error () := by
    simp [failProbe]
  have hIns : (failProbe env "S3Buckets" r).describeInstances = env.describeInstances := by
    simp [failProbe]
  have hVol : (failProbe env "S3Buckets" r).describeVolumes = env.describeVolumes := by
    simp [failProbe]
  have hSnap : (failProbe env "S3Buckets" r).describeSnapshots = env.describeSnapshots := by
    simp [failProbe]
  have hSG : (failProbe env "S3Buckets" r).describeSecurityGroups
      = env.describeSecurityGroups := by
    simp [failProbe]
  have hDB : (failProbe env "S3Buckets" r).describeDBInstances = env.describeDBInstances := by
    simp [failProbe]
  have c1 : ec2InstancesOf (failProbe env "S3Buckets" r) r = ec2InstancesOf env r := by
    unfold ec2InstancesOf
    rw [hIns]
  have c2 : ec2VolumesOf (failProbe env "S3Buckets" r) r = ec2VolumesOf env r := by
    unfold ec2VolumesOf
    rw [hIns, hVol]
  have c3 : ec2SnapshotsOf (failProbe env "S3Buckets" r) r = ec2SnapshotsOf env r := by
    unfold ec2SnapshotsOf
    rw [hIns, hVol, hSnap]
  have c4 : ec2SecurityGroupsOf (failProbe env "S3Buckets" r) r
      = ec2SecurityGroupsOf env r := by
    unfold ec2SecurityGroupsOf
    rw [hIns, hVol, hSnap, hSG]
  have c6 : rdsOf (failProbe env "S3Buckets" r) r = rdsOf env r := by
    unfold rdsOf
    rw [hDB]
  rw [collectRegion_eq, s3BucketsOf_of_error _ r hfail, c1, c2, c3, c4, c6]

lemma collectRegion_failProbe_rds (env : Env) (r : String) :
    (collectRegion (failProbe env "RDSInstances" r) r).1
      = mkRegionData (ec2InstancesOf env r) (ec2VolumesOf env r) (ec2SnapshotsOf env r)
          (ec2SecurityGroupsOf env r) (s3BucketsOf env r) [] := by
  have hfail : (failProbe env "RDSInstances" r).describeDBInstances r = .error () := by
    simp [failProbe]
  have hIns : (failProbe env "RDSInstances" r).describeInstances = env.describeInstances := by
    simp [failProbe]
  have hVol : (failProbe env "RDSInstances" r).describeVolumes = env.describeVolumes := by
    simp [failProbe]
  have hSnap : (failProbe env "RDSInstances" r).describeSnapshots = env.describeSnapshots := by
    simp [failProbe]
  have hSG : (failProbe env "RDSInstances" r).describeSecurityGroups
      = env.describeSecurityGroups := by
    simp [failProbe]
  have hLB : (failProbe env "RDSInstances" r).listBuckets = env.listBuckets := by
    simp [failProbe]
  have hGL : (failProbe env "RDSInstances" r).getBucketLocation = env.getBucketLocation := by
    simp [failProbe]
  have c1 : ec2InstancesOf (failProbe env "RDSInstances" r) r = ec2InstancesOf env r := by
    unfold ec2InstancesOf
    rw [hIns]
  have c2 : ec2VolumesOf (failProbe env "RDSInstances" r) r = ec2VolumesOf env r := by
    unfold ec2VolumesOf
    rw [hIns, hVol]
  have c3 : ec2SnapshotsOf (failProbe env "RDSInstances" r) r = ec2SnapshotsOf env r := by
    unfold ec2SnapshotsOf
    rw [hIns, hVol, hSnap]
  have c4 : ec2SecurityGroupsOf (failProbe env "RDSInstances" r) r
      = ec2SecurityGroupsOf env r := by
    unfold ec2SecurityGroupsOf
    rw [hIns, hVol, hSnap, hSG]
  have c5 : s3BucketsOf (failProbe env "RDSInstances" r) r = s3BucketsOf env r :=
    s3BucketsOf_congr (failProbe env "RDSInstances" r) env r (by rw [hLB]) hGL
  rw [collectRegion_eq, rdsOf_of_error _ r hfail, c1, c2, c3, c4, c5]

/-- Claim C1 (counterexample): with two discovered regions, the run
issues the global bucket-listing call twice, not once — each iteration
of the region loop constructs a fresh S3 client and re-lists the
buckets. -/
theorem c1_counterexample :
    (get_all_resources envA).2.length = 2 ∧ ¬ (get_all_resources envA).2.length = 1 := by
  decide

/-- Claim C1 (amended): the global bucket-listing call is issued once
per discovered region — `n` times for `n` regions — not once per run;
every per-region collection re-queries the listing instead of reusing a
shared result. -/
theorem c1_bucket_listing_once_per_region (env : Env) (rs : List String)
    (hreg : env.describeRegions = .ok rs) (hall : "ALL" ∉ rs) :
    (get_all_resources env).2.length = rs.length :=
  get_all_trace_length hreg hall

/-- Claim C1 witness: the amended statement evaluated on the concrete
two-region account. -/
theorem c1_witness :
    (get_all_resources envA).2.length = (["us-east-1", "eu-west-1"] : List String).length :=
  c1_bucket_listing_once_per_region envA ["us-east-1", "eu-west-1"] rfl (by decide)

/-- Claim C2 (counterexample): when the region-listing call raises, the
returned inventory has no entries at all — in particular it does not
contain exactly one sentinel entry. -/
theorem c2_counterexample :
    (get_all_resources envNoRegions).1 = [] ∧
    ¬ (get_all_resources envNoRegions).1.length = 1 := by
  decide

/-- Claim C2 (amended): if region discovery yields zero regions —
whether the region-listing call raises or succeeds with an empty list —
the enumeration returns an empty inventory with no entries (no sentinel
entry is created), and no failure record of any kind is produced: the
exception is swallowed silently. -/
theorem c2_no_regions_empty_inventory (env : Env)
    (h : env.describeRegions = .error () ∨ env.describeRegions = .ok []) :
    get_all_resources env = ([], []) := by
  rcases h with h | h
  · simp [get_all_resources, discoverRegions, h]
  · simp [get_all_resources, discoverRegions, h, enumStep]

/-- Claim C2 witness: the amended statement on the account whose
region-listing call raises. -/
theorem c2_witness : get_all_resources envNoRegions = ([], []) :=
  c2_no_regions_empty_inventory envNoRegions (Or.inl rfl)

/-- Claim C7 (counterexample): the discovery step performs no
deduplication — a provider response repeating a region name is returned
with the duplicate kept. -/
theorem c7_counterexample :
    discoverRegions envDupRegions = some ["us-east-1", "us-east-1"] ∧
    ¬ (["us-east-1", "us-east-1"] : List String).Nodup := by
  decide

/-- Claim C7 (amended): on a successful region-listing response the
discovery step returns the provider's region identifiers exactly as
supplied — order preserved and no sorting applied — but without
deduplicating them. -/
theorem c7_regions_order_preserved (env : Env) (rs : List String)
    (hreg : env.describeRegions = .ok rs) :
    discoverRegions env = some rs := by
  rw [discoverRegions, hreg]

/-- Claim C7 witness: the amended statement on the concrete two-region
account. -/
theorem c7_witness : discoverRegions envA = some ["us-east-1", "eu-west-1"] :=
  c7_regions_order_preserved envA ["us-east-1", "eu-west-1"] rfl

/-- Claim C3 (counterexample): two runs over the same single-region
account differing only in the instances call — failing in the first
run (the run's only failing call), succeeding with no reservations in
the second.  In the failing run the Volumes sequence of the same region
is empty, while the no-failure run holds the volume `vol-1`: a failure
of the Instances probe wipes out the sibling Volumes data, because one
shared exception handler covers all four EC2 calls. -/
theorem c3_counterexample :
    (get_all_resources envFailInst).1
        = [("us-east-1", mkRegionData [] [] [] [] ["b1"] [])] ∧
    (get_all_resources envOkayInst).1
        = [("us-east-1", mkRegionData [] ["vol-1"] [] [] ["b1"] [])] := by
  decide

/-- Claim C3 (amended): for every kind `k` of the six, when exactly one
probe fails — the probe for `k` in region `r` — the sequence at `(r, k)`
is empty; every kind sequence of `r` that `probeAffected` does not cover
(the S3-bucket and database sequences when an EC2 call fails, every
other sequence when the S3 or database call fails, and the EC2-section
kinds whose calls were issued before `k`) holds exactly its no-failure
items; every other region's data is untouched; but the EC2-section kinds
issued after a failing EC2 call are also left empty, because a single
exception handler wraps all four EC2 calls and the failure skips the
remaining calls of that block. -/
theorem c3_single_failure_scope (env : Env) (r k : String) (hk : k ∈ sixKindNames) :
    getKind (collectRegion (failProbe env k r) r).1 k = [] ∧
    (∀ k2 ∈ sixKindNames,
      getKind (collectRegion (failProbe env k r) r).1 k2
        = if probeAffected k k2 then [] else getKind (collectRegion env r).1 k2) ∧
    (∀ x, x ≠ r → (collectRegion (failProbe env k r) x).1 = (collectRegion env x).1) := by
  simp only [sixKindNames, List.mem_cons, List.not_mem_nil, or_false] at hk
  rcases hk with rfl | rfl | rfl | rfl | rfl | rfl
  · refine ⟨?_, ?_, ?_⟩
    · rw [collectRegion_failProbe_instances]
      rfl
    · intro k2 hk2
      rw [collectRegion_failProbe_instances, collectRegion_eq env r]
      simp only [sixKindNames, List.mem_cons, List.not_mem_nil, or_false] at hk2
      rcases hk2 with rfl | rfl | rfl | rfl | rfl | rfl
      · rw [if_pos (by decide)]
        rfl
      · rw [if_pos (by decide)]
        rfl
      · rw [if_pos (by decide)]
        rfl
      · rw [if_pos (by decide)]
        rfl
      · rw [if_neg (by decide)]
        rfl
      · rw [if_neg (by decide)]
        rfl
    · intro x hx
      exact collectRegion_congr (failProbe env "Instances" r) env x
        (by simp [failProbe, hx]) (by simp [failProbe]) (by simp [failProbe])
        (by simp [failProbe]) (by simp [failProbe]) (by simp [failProbe])
        (by simp [failProbe])
  · refine ⟨?_, ?_, ?_⟩
    · rw [collectRegion_failProbe_volumes]
      rfl
    · intro k2 hk2
      rw [collectRegion_failProbe_volumes, collectRegion_eq env r]
      simp only [sixKindNames, List.mem_cons, List.not_mem_nil, or_false] at hk2
      rcases hk2 with rfl | rfl | rfl | rfl | rfl | rfl
      · rw [if_neg (by decide)]
        rfl
      · rw [if_pos (by decide)]
        rfl
      · rw [if_pos (by decide)]
        rfl
      · rw [if_pos (by decide)]
        rfl
      · rw [if_neg (by decide)]
        rfl
      · rw [if_neg (by decide)]
        rfl
    · intro x hx
      exact collectRegion_congr (failProbe env "Volumes" r) env x
        (by simp [failProbe]) (by simp [failProbe, hx]) (by simp [failProbe])
        (by simp [failProbe]) (by simp [failProbe]) (by simp [failProbe])
        (by simp [failProbe])
  · refine ⟨?_, ?_, ?_⟩
    · rw [collectRegion_failProbe_snapshots]
      rfl
    · intro k2 hk2
      rw [collectRegion_failProbe_snapshots, collectRegion_eq env r]
      simp only [sixKindNames, List.mem_cons, List.not_mem_nil, or_false] at hk2
      rcases hk2 with rfl | rfl | rfl | rfl | rfl | rfl
      · rw [if_neg (by decide)]
        rfl
      · rw [if_neg (by decide)]
        rfl
      · rw [if_pos (by decide)]
        rfl
      · rw [if_pos (by decide)]
        rfl
      · rw [if_neg (by decide)]
        rfl
      · rw [if_neg (by decide)]
        rfl
    · intro x hx
      exact collectRegion_congr (failProbe env "Snapshots" r) env x
        (by simp [failProbe]) (by simp [failProbe]) (by simp [failProbe, hx])
        (by simp [failProbe]) (by simp [failProbe]) (by simp [failProbe])
        (by simp [failProbe])
  · refine ⟨?_, ?_, ?_⟩
    · rw [collectRegion_failProbe_sgs]
      rfl
    · intro k2 hk2
      rw [collectRegion_failProbe_sgs, collectRegion_eq env r]
      simp only [sixKindNames, List.mem_cons, List.not_mem_nil, or_false] at hk2
      rcases hk2 with rfl | rfl | rfl | rfl | rfl | rfl
      · rw [if_neg (by decide)]
        rfl
      · rw [if_neg (by decide)]
        rfl
      · rw [if_neg (by decide)]
        rfl
      · rw [if_pos (by decide)]
        rfl
      · rw [if_neg (by decide)]
        rfl
      · rw [if_neg (by decide)]
        rfl
    · intro x hx
      exact collectRegion_congr (failProbe env "SecurityGroups" r) env x
        (by simp [failProbe]) (by simp [failProbe]) (by simp [failProbe])
        (by simp [failProbe, hx]) (by simp [failProbe]) (by simp [failProbe])
        (by simp [failProbe])
  · refine ⟨?_, ?_, ?_⟩
    · rw [collectRegion_failProbe_s3]
      rfl
    · intro k2 hk2
      rw [collectRegion_failProbe_s3, collectRegion_eq env r]
      simp only [sixKindNames, List.mem_cons, List.not_mem_nil, or_false] at hk2
      rcases hk2 with rfl | rfl | rfl | rfl | rfl | rfl
      · rw [if_neg (by decide)]
        rfl
      · rw [if_neg (by decide)]
        rfl
      · rw [if_neg (by decide)]
        rfl
      · rw [if_neg (by decide)]
        rfl
      · rw [if_pos (by decide)]
        rfl
      · rw [if_neg (by decide)]
        rfl
    · intro x hx
      exact collectRegion_congr (failProbe env "S3Buckets" r) env x
        (by simp [failProbe]) (by simp [failProbe]) (by simp [failProbe])
        (by simp [failProbe]) (by simp [failProbe, hx]) (by simp [failProbe])
        (by simp [failProbe])
  · refine ⟨?_, ?_, ?_⟩
    · rw [collectRegion_failProbe_rds]
      rfl
    · intro k2 hk2
      rw [collectRegion_failProbe_rds, collectRegion_eq env r]
      simp only [sixKindNames, List.mem_cons, List.not_mem_nil, or_false] at hk2
      rcases hk2 with rfl | rfl | rfl | rfl | rfl | rfl
      · rw [if_neg (by decide)]
        rfl
      · rw [if_neg (by decide)]
        rfl
      · rw [if_neg (by decide)]
        rfl
      · rw [if_neg (by decide)]
        rfl
      · rw [if_neg (by decide)]
        rfl
      · rw [if_pos (by decide)]
        rfl
    · intro x hx
      exact collectRegion_congr (failProbe env "RDSInstances" r) env x
        (by simp [failProbe]) (by simp [failProbe]) (by simp [failProbe])
        (by simp [failProbe]) (by simp [failProbe]) (by simp [failProbe])
        (by simp [failProbe, hx])

/-- Claim C3 witness: two parts of the amended statement on a concrete
account, for a failing Volumes probe — the failing kind's own sequence
is emptied, and a region other than the failing one is untouched. -/
theorem c3_witness :
    getKind (collectRegion (failProbe envA "Volumes" "us-east-1") "us-east-1").1 "Volumes"
        = [] ∧
    (collectRegion (failProbe envA "Volumes" "us-east-1") "eu-west-1").1
        = (collectRegion envA "eu-west-1").1 :=
  ⟨(c3_single_failure_scope envA "us-east-1" "Volumes" (by decide)).1,
   (c3_single_failure_scope envA "us-east-1" "Volumes" (by decide)).2.2 "eu-west-1"
     (by decide)⟩

/-- Claim C4 (amended): every region key of the returned inventory maps
all six resource kinds, in the fixed canonical order, to a possibly
empty item sequence; however the sentinel "ALL" is never a key of the
returned inventory — the region loop skips the sentinel without storing
an entry for it, and the aggregate view is synthesized separately by the
display layer. -/
theorem c4_all_six_kinds (env : Env) (p : String × RegionData)
    (hp : p ∈ (get_all_resources env).1) :
    p.2.map Prod.fst = sixKindNames ∧ p.1 ≠ "ALL" := by
  rcases henv : env.describeRegions with u | rs
  · simp only [get_all_resources, discoverRegions, henv] at hp
    cases hp
  · have h := mem_get_all henv hp
    refine ⟨?_, h.2.1⟩
    rw [h.2.2, collectRegion_eq]
    exact mkRegionData_keys _ _ _ _ _ _

/-- Claim C4 witness: the statement evaluated at a concrete inventory
entry of the two-region account. -/
theorem c4_witness :
    (("us-east-1", mkRegionData ["i-1"] ["vol-1"] [] [] ["b1"] []) :
        String × RegionData).2.map Prod.fst = sixKindNames ∧
    (("us-east-1", mkRegionData ["i-1"] ["vol-1"] [] [] ["b1"] []) :
        String × RegionData).1 ≠ "ALL" :=
  c4_all_six_kinds envA _ (by decide)

/-- Claim C4 (counterexample): on the two-region account the returned
inventory's keys are exactly the two discovered regions — the sentinel
"ALL" is not among them, so the claim's "including the sentinel ALL
entry" fails on the returned inventory. -/
theorem c4_counterexample :
    (get_all_resources envA).1.map Prod.fst = ["us-east-1", "eu-west-1"] ∧
    "ALL" ∉ (get_all_resources envA).1.map Prod.fst := by
  decide

/-- Claim C5: for every run and every resource kind, the sentinel "ALL"
view computed by the display layer equals the concatenation of that
kind's sequences across all non-sentinel regions, taken in the order the
region-listing call returned the regions (which is the inventory's
insertion order). -/
theorem c5_sentinel_is_concatenation (env : Env) (rs : List String) (k : String)
    (hreg : env.describeRegions = .ok rs) (hnd : rs.Nodup) (hall : "ALL" ∉ rs)
    (hk : k ∈ sixKindNames) :
    getKind (combineAll (get_all_resources env).1) k
      = (rs.map (fun r => getKind (collectRegion env r).1 k)).flatten := by
  rw [get_all_eq_map hreg hnd hall]
  have hinit : initRegionData = mkRegionData [] [] [] [] [] [] := rfl
  rw [combineAll, hinit, combineAll_aux env rs [] [] [] [] [] [] hall]
  have hcomp : ∀ r : String, (collectRegion env r).1
      = mkRegionData (ec2InstancesOf env r) (ec2VolumesOf env r) (ec2SnapshotsOf env r)
          (ec2SecurityGroupsOf env r) (s3BucketsOf env r) (rdsOf env r) := by
    intro r
    rw [collectRegion_eq]
  simp only [sixKindNames, List.mem_cons, List.not_mem_nil, or_false] at hk
  rcases hk with rfl | rfl | rfl | rfl | rfl | rfl <;> simp [hcomp]

/-- Claim C5 witness: the statement evaluated on the two-region account
for the Instances kind. -/
theorem c5_witness :
    getKind (combineAll (get_all_resources envA).1) "Instances"
      = ((["us-east-1", "eu-west-1"] : List String).map
          (fun r => getKind (collectRegion envA r).1 "Instances")).flatten :=
  c5_sentinel_is_concatenation envA ["us-east-1", "eu-west-1"] "Instances" rfl
    (by decide) (by decide) (by decide)

/-- Claim C6: a bucket with no location constraint, listed exactly once,
lands in the default region's (us-east-1) bucket sequence exactly once
and in no other region's bucket sequence, provided the discovery
returned us-east-1 and the S3 calls answer consistently across the
per-region iterations. -/
theorem c6_unlocated_bucket_default_region (env : Env) (rs bs : List String)
    (locOf : String → Option String) (n : String)
    (hreg : env.describeRegions = .ok rs) (hnd : rs.Nodup) (hall : "ALL" ∉ rs)
    (hdef : "us-east-1" ∈ rs)
    (hlb : ∀ r, env.listBuckets r = .ok bs)
    (hloc : ∀ r b, env.getBucketLocation r b = .ok (locOf b))
    (hn : locOf n = none) (hcount : bs.count n = 1) :
    (("us-east-1", (collectRegion env "us-east-1").1) ∈ (get_all_resources env).1 ∧
      (getKind (collectRegion env "us-east-1").1 "S3Buckets").count n = 1) ∧
    ∀ p ∈ (get_all_resources env).1, p.1 ≠ "us-east-1" → n ∉ getKind p.2 "S3Buckets" := by
  have hmap := get_all_eq_map hreg hnd hall
  have hs3 : ∀ r : String, getKind (collectRegion env r).1 "S3Buckets" = s3BucketsOf env r := by
    intro r
    rw [collectRegion_eq]
    rfl
  have hfil : ∀ r : String, s3BucketsOf env r
      = bs.filter (fun b => decide (locOf b = some r ∨ (locOf b = none ∧ r = "us-east-1"))) := by
    intro r
    unfold s3BucketsOf
    rw [hlb r]
    exact s3Loop_ok env r locOf (hloc r) bs
  constructor
  · constructor
    · rw [hmap]
      exact List.mem_map.mpr ⟨"us-east-1", hdef, rfl⟩
    · rw [hs3, hfil]
      rw [List.count_filter (by simp [hn])]
      exact hcount
  · intro p hp hne
    have h := mem_get_all hreg hp
    rw [h.2.2, hs3 p.1, hfil p.1]
    intro hmem
    have h2 := (List.mem_filter.mp hmem).2
    simp [hn] at h2
    exact hne h2

/-- Claim C6 witness: the placement part of the statement on the
concrete two-region account, for the unlocated bucket b1. -/
theorem c6_witness :
    ("us-east-1", (collectRegion envA "us-east-1").1) ∈ (get_all_resources envA).1 ∧
    (getKind (collectRegion envA "us-east-1").1 "S3Buckets").count "b1" = 1 :=
  (c6_unlocated_bucket_default_region envA ["us-east-1", "eu-west-1"] ["b1", "b2"]
      (fun b => if b = "b1" then none else some "eu-west-1") "b1" rfl (by decide)
      (by decide) (by decide) (fun r => rfl)
      (by
        intro r b
        by_cases h : b = "b1" <;> simp [envA, h])
      (by decide) (by decide)).1

/-- Claim C8: the formatter is a pure function of its region and
region-data arguments, and on every region-data dict of the program's
canonical shape it emits, for each resource kind in the fixed canonical
order, a header line followed by either the single `(none)` marker (when
that kind's sequence is empty) or one line per item in stored order —
i.e. it coincides with the spec's formatter contract. -/
theorem c8_formatter_matches_contract (region : String) (a b c d e f : List String) :
    format_region_data region (mkRegionData a b c d e f)
      = formatContract region a b c d e f := by
  rw [format_region_data, foldl_fmtStep, formatContract]
  simp [mkRegionData, List.append_assoc]

/-- Claim C9: for every run — whatever service calls fail, in whatever
position of a region's call sequence — each kind sequence stored for a
discovered region depends only on that kind's own call and the EC2
calls gating it, never on any later call: a call that fails partway
through the sequence cannot roll back the items appended before it.
Whenever the calls up to and including a kind's own call succeeded,
that kind holds exactly the normalized response items; and the region
always appears in the returned inventory with all six kind keys
present. -/
theorem c9_partial_failure_retention (env : Env) (r : String) (rs : List String)
    (hreg : env.describeRegions = .ok rs) (hnd : rs.Nodup) (hall : "ALL" ∉ rs)
    (hr : r ∈ rs) :
    (r, (collectRegion env r).1) ∈ (get_all_resources env).1 ∧
    ((collectRegion env r).1).map Prod.fst = sixKindNames ∧
    (∀ ins, env.describeInstances r = .ok ins →
      getKind (collectRegion env r).1 "Instances" = ins.flatten) ∧
    (∀ ins vols, env.describeInstances r = .ok ins → env.describeVolumes r = .ok vols →
      getKind (collectRegion env r).1 "Volumes" = vols) ∧
    (∀ ins vols snaps, env.describeInstances r = .ok ins →
      env.describeVolumes r = .ok vols → env.describeSnapshots r = .ok snaps →
      getKind (collectRegion env r).1 "Snapshots" = snaps) ∧
    (∀ ins vols snaps sgs, env.describeInstances r = .ok ins →
      env.describeVolumes r = .ok vols → env.describeSnapshots r = .ok snaps →
      env.describeSecurityGroups r = .ok sgs →
      getKind (collectRegion env r).1 "SecurityGroups" = sgs.map formatSG) ∧
    (∀ bs, env.listBuckets r = .ok bs →
      getKind (collectRegion env r).1 "S3Buckets" = s3Loop env r bs) ∧
    (∀ dbs, env.describeDBInstances r = .ok dbs →
      getKind (collectRegion env r).1 "RDSInstances" = dbs.map formatDB) := by
  have hc := collectRegion_eq env r
  refine ⟨?_, ?_, ?_, ?_, ?_, ?_, ?_, ?_⟩
  · rw [get_all_eq_map hreg hnd hall]
    exact List.mem_map.mpr ⟨r, hr, rfl⟩
  · rw [hc]
    exact mkRegionData_keys _ _ _ _ _ _
  · intro ins hins
    rw [hc]
    exact ec2InstancesOf_ok env r ins hins
  · intro ins vols hins hvols
    rw [hc]
    exact ec2VolumesOf_ok env r hins hvols
  · intro ins vols snaps hins hvols hsnaps
    rw [hc]
    exact ec2SnapshotsOf_ok env r hins hvols hsnaps
  · intro ins vols snaps sgs hins hvols hsnaps hsgs
    rw [hc]
    exact ec2SecurityGroupsOf_ok env r hins hvols hsnaps hsgs
  · intro bs hbs
    rw [hc]
    exact s3BucketsOf_ok env r hbs
  · intro dbs hdbs
    rw [hc]
    exact rdsOf_ok env r hdbs

/-- Claim C9 witness: the statement on a concrete single-region account
whose snapshots and database calls raise after the instances, volumes
and bucket data were gathered — the earlier kinds retain their items
and the region is in the inventory. -/
theorem c9_witness :
    ("us-east-1", (collectRegion envMidFail "us-east-1").1)
        ∈ (get_all_resources envMidFail).1 ∧
    getKind (collectRegion envMidFail "us-east-1").1 "Instances"
        = List.flatten [["i-1"]] ∧
    getKind (collectRegion envMidFail "us-east-1").1 "Volumes" = ["vol-1"] ∧
    getKind (collectRegion envMidFail "us-east-1").1 "S3Buckets"
        = s3Loop envMidFail "us-east-1" ["b1", "b2"] :=
  ⟨(c9_partial_failure_retention envMidFail "us-east-1" ["us-east-1"] rfl (by decide)
      (by decide) (by decide)).1,
   (c9_partial_failure_retention envMidFail "us-east-1" ["us-east-1"] rfl (by decide)
      (by decide) (by decide)).2.2.1 [["i-1"]] rfl,
   (c9_partial_failure_retention envMidFail "us-east-1" ["us-east-1"] rfl (by decide)
      (by decide) (by decide)).2.2.2.1 [["i-1"]] ["vol-1"] rfl rfl,
   (c9_partial_failure_retention envMidFail "us-east-1" ["us-east-1"] rfl (by decide)
      (by decide) (by decide)).2.2.2.2.2.2.1 ["b1", "b2"] rfl⟩

/-- Claim C10: a bucket whose governing region — its location
constraint, or us-east-1 when that constraint is absent — is not among
the discovered regions appears in no region's bucket sequence of the
returned inventory. -/
theorem c10_stray_bucket_nowhere (env : Env) (rs : List String) (n : String)
    (hreg : env.describeRegions = .ok rs)
    (hloc : ∀ r, r ∈ rs → ∀ loc, env.getBucketLocation r n = .ok loc →
      loc.getD "us-east-1" ∉ rs) :
    ∀ p ∈ (get_all_resources env).1, n ∉ getKind p.2 "S3Buckets" := by
  intro p hp hmem
  have h := mem_get_all hreg hp
  rw [h.2.2, collectRegion_eq] at hmem
  have hmem2 : n ∈ s3BucketsOf env p.1 := hmem
  unfold s3BucketsOf at hmem2
  rcases hb : env.listBuckets p.1 with u | bs
  · rw [hb] at hmem2
    exact (List.not_mem_nil n) hmem2
  · rw [hb] at hmem2
    have hmem3 : n ∈ s3Loop env p.1 bs := hmem2
    rcases mem_s3Loop env p.1 n bs hmem3 with ⟨loc, hok, hcond⟩
    rcases hcond with hc | hc
    · refine hloc p.1 h.1 loc hok ?_
      rw [hc]
      simpa using h.1
    · refine hloc p.1 h.1 loc hok ?_
      have huse : ("us-east-1" : String) ∈ rs := hc.2 ▸ h.1
      rw [hc.1]
      simpa using huse

/-- Claim C10 witness: bucket b3, governed by the undiscovered region
ap-south-1, is absent from the us-east-1 bucket sequence of the concrete
account that lists it. -/
theorem c10_witness :
    "b3" ∉ getKind (("us-east-1", (collectRegion envStray "us-east-1").1) :
        String × RegionData).2 "S3Buckets" :=
  c10_stray_bucket_nowhere envStray ["us-east-1", "eu-west-1"] "b3" rfl
    (by
      intro r hr loc hok
      simp [envStray, envA] at hok
      subst hok
      decide)
    ("us-east-1", (collectRegion envStray "us-east-1").1) (by decide)
